import Mathlib

/-!
Shallow embedding of `pcc-gitlab-registries.py`, a CLI tool that registers
GitLab repositories as scanned registries in Prisma Cloud Compute via its
REST API. Python values decoded from JSON are modelled by `JVal`; Python
dicts are association lists whose lookup takes the last binding (the value a
Python dict built from a JSON text or dotenv file would hold). HTTP traffic
is modelled by an oracle `http : Request → Response`; each API helper emits
the request it sends as a trace and consumes the oracle's response.
Interactive input is modelled by oracles from the prompt message to the
entered line. Uncaught Python exceptions are modelled by `Except.error` /
`Event.crash`.
-/

/-- Values decoded from JSON (Python's `json.load` / `requests.Response.json`).
Numbers are restricted to integers, the only numeric values this program
constructs or inspects. -/
inductive JVal where
  | null : JVal
  | bool : Bool → JVal
  | num : Int → JVal
  | str : String → JVal
  | arr : List JVal → JVal
  | obj : List (String × JVal) → JVal
deriving Inhabited

/-- Python truthiness (`bool(v)`) of a decoded JSON value. -/
def JVal.truthy : JVal → Bool
  | .null => false
  | .bool b => b
  | .num n => n != 0
  | .str s => !s.isEmpty
  | .arr xs => !xs.isEmpty
  | .obj fs => !fs.isEmpty

/-- Truthiness of the result of a Python `dict.get`: `None` (absent) is falsy. -/
def optTruthy : Option JVal → Bool
  | none => false
  | some v => v.truthy

/-- Lookup in a Python dict modelled as an association list: the last binding
for a key wins, as in a dict built by inserting the list's pairs in order
(which is what `json` parsing does with duplicate keys). -/
def getField (fs : List (String × JVal)) (k : String) : Option JVal :=
  (fs.reverse.find? (fun p => p.1 == k)).map (fun p => p.2)

/-- Lookup in a string-valued dict (`dotenv_values` result), last binding wins. -/
def lookupKey (cred : List (String × String)) (k : String) : Option String :=
  (cred.reverse.find? (fun p => p.1 == k)).map (fun p => p.2)

/-- One hexadecimal digit, lowercase, as produced by Python's `json.dumps`
`\uXXXX` escapes. -/
def hexDigit (n : Nat) : Char :=
  if n < 10 then Char.ofNat (48 + n) else Char.ofNat (87 + n)

/-- Four lowercase hex digits of `n % 0x10000`. -/
def hex4 (n : Nat) : String :=
  String.mk [hexDigit (n / 4096 % 16), hexDigit (n / 256 % 16),
             hexDigit (n / 16 % 16), hexDigit (n % 16)]

/-- Escape of a single character inside a JSON string literal, following
Python's `json.dumps` with its default `ensure_ascii=True`: printable ASCII
other than quote and backslash passes through, the short escapes are used for
the usual control characters, everything else becomes `\uXXXX` (a surrogate
pair beyond the BMP). -/
def escChar (c : Char) : String :=
  if c = '"' then "\\\""
  else if c = '\\' then "\\\\"
  else if c = '\n' then "\\n"
  else if c = '\t' then "\\t"
  else if c = '\r' then "\\r"
  else if c.toNat = 8 then "\\b"
  else if c.toNat = 12 then "\\f"
  else if 32 ≤ c.toNat ∧ c.toNat ≤ 126 then String.singleton c
  else if c.toNat ≤ 65535 then "\\u" ++ hex4 c.toNat
  else "\\u" ++ hex4 (55296 + (c.toNat - 65536) / 1024)
       ++ "\\u" ++ hex4 (56320 + (c.toNat - 65536) % 1024)

/-- Serialization of a JSON string body, `json.dumps` on a `str`. -/
def dumpsKey (k : String) : String :=
  "\"" ++ String.join (k.data.map escChar) ++ "\""

mutual

/-- Python's `json.dumps` with default arguments (separators `", "` and
`": "`, insertion order preserved). -/
def JVal.dumps : JVal → String
  | .null => "null"
  | .bool true => "true"
  | .bool false => "false"
  | .num n => toString n
  | .str s => dumpsKey s
  | .arr xs => "[" ++ dumpsList xs ++ "]"
  | .obj fs => "\x7b" ++ dumpsFields fs ++ "\x7d"

/-- Comma-separated serialization of array elements. -/
def dumpsList : List JVal → String
  | [] => ""
  | [x] => JVal.dumps x
  | x :: y :: rest => JVal.dumps x ++ ", " ++ dumpsList (y :: rest)

/-- Comma-separated serialization of object members. -/
def dumpsFields : List (String × JVal) → String
  | [] => ""
  | [(k, v)] => dumpsKey k ++ ": " ++ JVal.dumps v
  | (k, v) :: p :: rest => dumpsKey k ++ ": " ++ JVal.dumps v ++ ", " ++ dumpsFields (p :: rest)

end

/-- The HTTP request the `requests` library is asked to send: method, full
URL, header dict and the (already `json.dumps`-serialized) body. -/
structure Request where
  method : String
  url : String
  headers : List (String × String)
  body : String
deriving Repr, DecidableEq

/-- The part of a `requests` response this program consumes: the status code
and the JSON-decoded body (`r.json()`). -/
structure Response where
  status : Int
  jsonBody : JVal

/-- `api_get`: GET to `https://{url}/api/v1/{endpoint}` with a bearer token;
returns the sent request as a trace together with the raw response. -/
def api_get (http : Request → Response) (url endpoint token : String) (data : JVal) :
    List Request × Response :=
  let r : Request :=
    { method := "GET"
      url := "https://" ++ url ++ "/api/v1/" ++ endpoint
      headers := [("content-Type", "application/x-www-form-urlencoded; charset=UTF-8"),
                  ("Authorization", "Bearer " ++ token)]
      body := data.dumps }
  ([r], http r)

/-- `api_post`: POST to `https://{url}/api/v1/{endpoint}` with a bearer token. -/
def api_post (http : Request → Response) (url endpoint token : String) (data : JVal) :
    List Request × Response :=
  let r : Request :=
    { method := "POST"
      url := "https://" ++ url ++ "/api/v1/" ++ endpoint
      headers := [("content-Type", "application/json; charset=UTF-8"),
                  ("Authorization", "Bearer " ++ token)]
      body := data.dumps }
  ([r], http r)

/-- `api_put`: PUT to `https://{url}/api/v1/{endpoint}` with a bearer token. -/
def api_put (http : Request → Response) (url endpoint token : String) (data : JVal) :
    List Request × Response :=
  let r : Request :=
    { method := "PUT"
      url := "https://" ++ url ++ "/api/v1/" ++ endpoint
      headers := [("content-Type", "application/json; charset=UTF-8"),
                  ("Authorization", "Bearer " ++ token)]
      body := data.dumps }
  ([r], http r)

/-- `api_delete`: DELETE to `https://{url}/api/v1/{endpoint}` with a bearer token. -/
def api_delete (http : Request → Response) (url endpoint token : String) (data : JVal) :
    List Request × Response :=
  let r : Request :=
    { method := "DELETE"
      url := "https://" ++ url ++ "/api/v1/" ++ endpoint
      headers := [("content-Type", "application/json; charset=UTF-8"),
                  ("Authorization", "Bearer " ++ token)]
      body := data.dumps }
  ([r], http r)

/-- `get_credentials`: GET `credentials` with the default empty-string body. -/
def get_credentials (http : Request → Response) (url token : String) :
    List Request × Response :=
  api_get http url "credentials" token (JVal.str "")

/-- `get_collections`: GET `collections` with the default empty-string body. -/
def get_collections (http : Request → Response) (url token : String) :
    List Request × Response :=
  api_get http url "collections" token (JVal.str "")

/-- The `r_data` dict built by `set_registry` for one repository. -/
def registryData (registry : String) (repository : JVal) (collection : String) : JVal :=
  JVal.obj [("version", JVal.str "2"),
            ("registry", JVal.str registry),
            ("repository", repository),
            ("tag", JVal.str ""),
            ("os", JVal.str "linux"),
            ("cap", JVal.num 5),
            ("hostname", JVal.str ""),
            ("scanners", JVal.num 2),
            ("collections", JVal.arr [JVal.str collection])]

/-- `set_registry`: POST `settings/registry` with the fixed-shape registration
body. The `credentials` parameter is accepted, as in the source, and unused. -/
def set_registry (http : Request → Response) (url token registry : String)
    (repository : JVal) (credentials : Option String) (collection : String) :
    List Request × Response :=
  api_post http url "settings/registry" token (registryData registry repository collection)

/-- The authenticate request built by `auth_get_token`. -/
def authRequest (url user password : String) : Request :=
  { method := "POST"
    url := "https://" ++ url ++ "/api/v1/authenticate"
    headers := [("content-Type", "application/json; charset=UTF-8")]
    body := (JVal.obj [("username", JVal.str user), ("password", JVal.str password)]).dumps }

/-- Python's `v.get(k)` on the result of `r.json()`: defined on dicts, an
`AttributeError` on anything else. -/
def pyDictGet (v : JVal) (k : String) : Except String (Option JVal) :=
  match v with
  | .obj fs => Except.ok (getField fs k)
  | _ => Except.error "AttributeError: get"

/-- `auth_get_token`: POST the access/secret key pair to `authenticate` and
extract the `token` field of the JSON response with `.get` (absent gives
`none`, a non-dict response raises). -/
def auth_get_token (http : Request → Response) (url user password : String) :
    List Request × Except String (Option JVal) :=
  let req := authRequest url user password
  ([req], pyDictGet (http req).jsonBody "token")

mutual

/-- Python's `repr` of a decoded JSON value, as produced by `str` on
containers; strings are shown between single quotes (escaping of quotes and
control characters inside the string is elided — no property below evaluates
`repr` on such a string). -/
def pyRepr : JVal → String
  | .null => "None"
  | .bool true => "True"
  | .bool false => "False"
  | .num n => toString n
  | .str s => "'" ++ s ++ "'"
  | .arr xs => "[" ++ pyReprList xs ++ "]"
  | .obj fs => "\x7b" ++ pyReprFields fs ++ "\x7d"

/-- Comma-separated `repr` of list elements. -/
def pyReprList : List JVal → String
  | [] => ""
  | [x] => pyRepr x
  | x :: y :: rest => pyRepr x ++ ", " ++ pyReprList (y :: rest)

/-- Comma-separated `repr` of dict items. -/
def pyReprFields : List (String × JVal) → String
  | [] => ""
  | [(k, v)] => "'" ++ k ++ "': " ++ pyRepr v
  | (k, v) :: p :: rest => "'" ++ k ++ "': " ++ pyRepr v ++ ", " ++ pyReprFields (p :: rest)

end

/-- Python's `str` of a decoded JSON value, as used by `'{}'.format(v)`. -/
def pyStr : JVal → String
  | .str s => s
  | v => pyRepr v

/-- Python's `str` of an optional value (`str(None)` is `"None"`), as used by
`'Bearer {}'.format(token)` when the token came from `dict.get`. -/
def pyStrOpt : Option JVal → String
  | none => "None"
  | some v => pyStr v

/-- One observable step of the program: a line printed to stdout, an HTTP
request issued, or an uncaught Python exception. -/
inductive Event where
  | print : String → Event
  | net : Request → Event
  | crash : String → Event
deriving Repr, DecidableEq

/-- Python's `for i in v` over a decoded JSON value: lists yield their
elements, dicts their keys, strings their one-character substrings; anything
else raises `TypeError`. -/
def pyIter : JVal → Except String (List JVal)
  | .arr xs => Except.ok xs
  | .obj fs => Except.ok (fs.map (fun p => JVal.str p.1))
  | .str s => Except.ok (s.data.map (fun c => JVal.str (String.singleton c)))
  | _ => Except.error "TypeError: not iterable"

/-- Loop body of `list_basic_credentials`: print `i['_id']` for every entry
whose `external` field is falsy or absent. -/
def credGo : List JVal → List Event
  | [] => []
  | i :: rest =>
    match i with
    | .obj fs =>
      if optTruthy (getField fs "external") then credGo rest
      else
        match getField fs "_id" with
        | some v => Event.print (pyStr v) :: credGo rest
        | none => [Event.crash "KeyError: _id"]
    | _ => [Event.crash "AttributeError: get"]

/-- `list_basic_credentials`: fetch `credentials` and print the `_id` of every
non-`external` entry, in response order. -/
def list_basic_credentials (http : Request → Response) (url token : String) : List Event :=
  let r := get_credentials http url token
  r.1.map Event.net ++
    match pyIter r.2.jsonBody with
    | Except.ok xs => credGo xs
    | Except.error e => [Event.crash e]

/-- Loop body of `list_collections`: print `i['name']` for every entry whose
`name` field is truthy. -/
def collGo : List JVal → List Event
  | [] => []
  | i :: rest =>
    match i with
    | .obj fs =>
      match getField fs "name" with
      | some v => if v.truthy then Event.print (pyStr v) :: collGo rest else collGo rest
      | none => collGo rest
    | _ => [Event.crash "AttributeError: get"]

/-- `list_collections`: fetch `collections` and print the `name` of every
entry that has a truthy one, in response order. -/
def list_collections (http : Request → Response) (url token : String) : List Event :=
  let r := get_collections http url token
  r.1.map Event.net ++
    match pyIter r.2.jsonBody with
    | Except.ok xs => collGo xs
    | Except.error e => [Event.crash e]

/-- Loop body of `read_repository_list`: collect `i['path']` for every entry
whose `path` field is truthy. -/
def readRepoGo : List JVal → Except String (List JVal)
  | [] => Except.ok []
  | i :: rest =>
    match pyDictGet i "path" with
    | Except.error e => Except.error e
    | Except.ok o =>
      if optTruthy o then
        match o with
        | some v => (readRepoGo rest).map (fun l => v :: l)
        | none => (readRepoGo rest).map (fun l => l)
      else readRepoGo rest

/-- `read_repository_list`: parse the input file's JSON value and collect the
truthy `path` fields of its entries, in order. -/
def read_repository_list (fileJson : JVal) : Except String (List JVal) :=
  match pyIter fileJson with
  | Except.ok xs => readRepoGo xs
  | Except.error e => Except.error e

/-- `add_repositories`: one `set_registry` call per collected repository, in
order; the trace is the concatenation of the issued requests. -/
def add_repositories (http : Request → Response) (url token registry : String)
    (credentials : Option String) (collection : String) (fileJson : JVal) :
    Except String (List Request) :=
  (read_repository_list fileJson).map (fun l =>
    l.foldl (fun acc i => acc ++ (set_registry http url token registry i credentials collection).1) [])

/-- Prompt text for the Console endpoint. -/
def urlPrompt : String :=
  "Enter the compute path to the Console (Compute>System>Utilities): "

/-- Prompt text for the access key. -/
def accessKeyPrompt : String := "Enter your Access Key: "

/-- Prompt text for the secret key. -/
def secretKeyPrompt : String := "Enter your Secret Key: "

/-- `get_key`: read a secret, via `getpass` when stdin is a terminal,
otherwise one line from stdin with trailing whitespace stripped. Both input
channels are modelled by oracles from the prompt message to the entered text
(the stdin branch does not display the message; the argument only selects the
read). -/
def get_key (isatty : Bool) (getpassResp stdinLine : String → String)
    (string : String) : String :=
  if isatty then getpassResp string else (stdinLine string).trimRight

/-- `check_env`: whether a `.env` file exists in the working directory; the
file's parsed key-value pairs, when it exists, are the model's `envFile`. -/
def check_env (envFile : Option (List (String × String))) : Bool :=
  envFile.isSome

/-- Result of `get_env_variables`, together with the list of prompts issued
(in order), which the source sends to the terminal. -/
structure EnvResult where
  url : String
  access_key : String
  secret_key : String
  prompts : List String
deriving Repr, DecidableEq

/-- `get_env_variables`: take each of the three configuration values from the
`.env` file when present there, otherwise prompt for it (`input` for the
endpoint, `get_key` for the two keys); with no `.env` file, prompt for all
three. -/
def get_env_variables (envFile : Option (List (String × String))) (isatty : Bool)
    (inputResp getpassResp stdinLine : String → String) : EnvResult :=
  match envFile with
  | some credentials =>
    let u := match lookupKey credentials "COMPUTE_API_ENDPOINT" with
      | some v => (v, ([] : List String))
      | none => (inputResp urlPrompt, [urlPrompt])
    let a := match lookupKey credentials "ACCESS_KEY" with
      | some v => (v, ([] : List String))
      | none => (get_key isatty getpassResp stdinLine accessKeyPrompt, [accessKeyPrompt])
    let s := match lookupKey credentials "SECRET_KEY" with
      | some v => (v, ([] : List String))
      | none => (get_key isatty getpassResp stdinLine secretKeyPrompt, [secretKeyPrompt])
    ⟨u.1, a.1, s.1, u.2 ++ a.2 ++ s.2⟩
  | none =>
    ⟨inputResp urlPrompt,
     get_key isatty getpassResp stdinLine accessKeyPrompt,
     get_key isatty getpassResp stdinLine secretKeyPrompt,
     [urlPrompt, accessKeyPrompt, secretKeyPrompt]⟩

/-- `check_path`: resolve the `-j` argument against the working directory
unless it is an existing absolute path, then require the resolved path to name
an existing file; `none` models the `print`-and-`sys.exit()` branch. -/
def check_path (isfile : String → Bool) (cwd jsonArg : String) : Option String :=
  let path := if isfile jsonArg && jsonArg.startsWith "/" then jsonArg
              else cwd ++ "/" ++ jsonArg
  if isfile path then some path else none

/-- Message printed when the input file does not exist. -/
def missingFileMsg : String := "The path specified for the json file does not exist"

/-- The `__main__` block as an event trace: validate the input path (exiting
with a message when it is missing), resolve the configuration, authenticate,
then either print the credential and collection listings (list mode) or
register every repository of the input file. `fileJson` is the JSON value
`json.load` would produce for the file at the resolved path. -/
def main_run (http : Request → Response) (isfile : String → Bool) (cwd : String)
    (argsList : Bool) (argsRegistry argsJson : String) (argsCredentials : Option String)
    (argsScope : String) (envFile : Option (List (String × String))) (isatty : Bool)
    (inputResp getpassResp stdinLine : String → String) (fileJson : JVal) : List Event :=
  match check_path isfile cwd argsJson with
  | none => [Event.print missingFileMsg]
  | some _path =>
    let env := get_env_variables envFile isatty inputResp getpassResp stdinLine
    let auth := auth_get_token http env.url env.access_key env.secret_key
    (auth.1.map Event.net) ++
      match auth.2 with
      | Except.error e => [Event.crash e]
      | Except.ok token =>
        let tokenStr := pyStrOpt token
        if argsList then
          [Event.print "Credentials"] ++ list_basic_credentials http env.url tokenStr ++
            [Event.print ""] ++ [Event.print "Collections/Scope"] ++
            list_collections http env.url tokenStr
        else
          match add_repositories http env.url tokenStr argsRegistry argsCredentials
              argsScope fileJson with
          | Except.ok reqs => reqs.map Event.net
          | Except.error e => [Event.crash e]

/-- The single request emitted by one `set_registry` call. -/
def registryRequest (url token registry : String) (repository : JVal) (collection : String) :
    Request :=
  { method := "POST"
    url := "https://" ++ url ++ "/api/v1/settings/registry"
    headers := [("content-Type", "application/json; charset=UTF-8"),
                ("Authorization", "Bearer " ++ token)]
    body := (registryData registry repository collection).dumps }

lemma set_registry_trace (http : Request → Response) (url token registry : String)
    (repository : JVal) (credentials : Option String) (collection : String) :
    (set_registry http url token registry repository credentials collection).1 =
      [registryRequest url token registry repository collection] := by
  simp [set_registry, api_post, registryRequest, String.append_assoc]

lemma foldl_set_registry_trace (http : Request → Response) (url token registry : String)
    (credentials : Option String) (collection : String) (l : List JVal) (acc : List Request) :
    l.foldl (fun a i => a ++ (set_registry http url token registry i credentials collection).1) acc
      = acc ++ l.map (fun i => registryRequest url token registry i collection) := by
  induction l generalizing acc with
  | nil => simp
  | cons x xs ih =>
    rw [List.map_cons, List.foldl_cons, set_registry_trace, ih]
    simp

/-- C1: on the input array `[{"path":"a/b"}, {"path":"c/d"}, {"no_path": true}]`
the registrar issues exactly two registration calls, carrying the repository
values `"a/b"` then `"c/d"` in that order, and no call for the third entry. -/
theorem C1_two_registrations (http : Request → Response)
    (url token registry : String) (credentials : Option String) (collection : String) :
    add_repositories http url token registry credentials collection
        (JVal.arr [JVal.obj [("path", JVal.str "a/b")],
                   JVal.obj [("path", JVal.str "c/d")],
                   JVal.obj [("no_path", JVal.bool true)]]) =
      Except.ok [registryRequest url token registry (JVal.str "a/b") collection,
                 registryRequest url token registry (JVal.str "c/d") collection] := by
  simp [add_repositories, read_repository_list, pyIter, readRepoGo, pyDictGet, getField,
        optTruthy, JVal.truthy, Except.map, foldl_set_registry_trace, set_registry_trace,
        show ("a/b").isEmpty = false from rfl, show ("c/d").isEmpty = false from rfl]

/-- C2: every registration body carries `version "2"`, `tag ""`, `os "linux"`,
`cap 5`, `scanners 2`, `hostname ""` and `collections [scope]`; the
`repository` field holds the entry being registered and `registry` the
run-constant registry, with nothing else in the dict. -/
theorem C2_registration_body_constants (http : Request → Response)
    (url token registry : String) (repository : JVal) (credentials : Option String)
    (collection : String) :
    (set_registry http url token registry repository credentials collection).1 =
      [registryRequest url token registry repository collection] ∧
    ∃ fs, registryData registry repository collection = JVal.obj fs ∧
      getField fs "version" = some (JVal.str "2") ∧
      getField fs "tag" = some (JVal.str "") ∧
      getField fs "os" = some (JVal.str "linux") ∧
      getField fs "cap" = some (JVal.num 5) ∧
      getField fs "scanners" = some (JVal.num 2) ∧
      getField fs "hostname" = some (JVal.str "") ∧
      getField fs "collections" = some (JVal.arr [JVal.str collection]) ∧
      getField fs "repository" = some repository ∧
      getField fs "registry" = some (JVal.str registry) := by
  constructor
  · exact set_registry_trace http url token registry repository credentials collection
  · exact ⟨_, rfl, rfl, rfl, rfl, rfl, rfl, rfl, rfl, rfl, rfl⟩

/-- C4: the credential identifier argument is never part of the issued
registration requests: two runs of `set_registry`, of the registration loop,
or of the whole program that differ only in it behave identically. -/
theorem C4_credentials_independence (http : Request → Response)
    (isfile : String → Bool) (cwd : String) (argsList : Bool)
    (url token registry argsJson : String) (repository fileJson : JVal)
    (c1 c2 : Option String) (collection : String)
    (envFile : Option (List (String × String))) (isatty : Bool)
    (inputResp getpassResp stdinLine : String → String) :
    set_registry http url token registry repository c1 collection =
      set_registry http url token registry repository c2 collection ∧
    add_repositories http url token registry c1 collection fileJson =
      add_repositories http url token registry c2 collection fileJson ∧
    main_run http isfile cwd argsList registry argsJson c1 collection envFile isatty
        inputResp getpassResp stdinLine fileJson =
      main_run http isfile cwd argsList registry argsJson c2 collection envFile isatty
        inputResp getpassResp stdinLine fileJson :=
  ⟨rfl, rfl, rfl⟩

/-- C9: each of the four API operations targets
`https://{host}/api/v1/{path}`, sends a content-type header and an
`Authorization: Bearer {token}` header, serializes its body with
`json.dumps` (the omitted-body callers send the JSON encoding of the empty
string), and hands back the transport's response unexamined. -/
theorem C9_api_client_shape (http : Request → Response)
    (url endpoint token : String) (data : JVal) :
    api_get http url endpoint token data =
      ([{ method := "GET"
          url := "https://" ++ url ++ "/api/v1/" ++ endpoint
          headers := [("content-Type", "application/x-www-form-urlencoded; charset=UTF-8"),
                      ("Authorization", "Bearer " ++ token)]
          body := data.dumps }],
       http { method := "GET"
              url := "https://" ++ url ++ "/api/v1/" ++ endpoint
              headers := [("content-Type", "application/x-www-form-urlencoded; charset=UTF-8"),
                          ("Authorization", "Bearer " ++ token)]
              body := data.dumps }) ∧
    api_post http url endpoint token data =
      ([{ method := "POST"
          url := "https://" ++ url ++ "/api/v1/" ++ endpoint
          headers := [("content-Type", "application/json; charset=UTF-8"),
                      ("Authorization", "Bearer " ++ token)]
          body := data.dumps }],
       http { method := "POST"
              url := "https://" ++ url ++ "/api/v1/" ++ endpoint
              headers := [("content-Type", "application/json; charset=UTF-8"),
                          ("Authorization", "Bearer " ++ token)]
              body := data.dumps }) ∧
    api_put http url endpoint token data =
      ([{ method := "PUT"
          url := "https://" ++ url ++ "/api/v1/" ++ endpoint
          headers := [("content-Type", "application/json; charset=UTF-8"),
                      ("Authorization", "Bearer " ++ token)]
          body := data.dumps }],
       http { method := "PUT"
              url := "https://" ++ url ++ "/api/v1/" ++ endpoint
              headers := [("content-Type", "application/json; charset=UTF-8"),
                          ("Authorization", "Bearer " ++ token)]
              body := data.dumps }) ∧
    api_delete http url endpoint token data =
      ([{ method := "DELETE"
          url := "https://" ++ url ++ "/api/v1/" ++ endpoint
          headers := [("content-Type", "application/json; charset=UTF-8"),
                      ("Authorization", "Bearer " ++ token)]
          body := data.dumps }],
       http { method := "DELETE"
              url := "https://" ++ url ++ "/api/v1/" ++ endpoint
              headers := [("content-Type", "application/json; charset=UTF-8"),
                          ("Authorization", "Bearer " ++ token)]
              body := data.dumps }) ∧
    (JVal.str "").dumps = "\"\"" ∧
    (get_credentials http url token).1.map Request.body = ["\"\""] ∧
    (get_collections http url token).1.map Request.body = ["\"\""] :=
  ⟨rfl, rfl, rfl, rfl, rfl, rfl, rfl⟩

/-- C3: for every input JSON value from which N repository paths are
collected, the registrar issues exactly N POST calls to `settings/registry`;
in particular the empty array issues zero calls and the run ends normally. -/
theorem C3_one_post_per_repository (http : Request → Response)
    (url token registry : String) (credentials : Option String) (collection : String) :
    (∀ fileJson l, read_repository_list fileJson = Except.ok l →
      ∃ reqs, add_repositories http url token registry credentials collection fileJson =
          Except.ok reqs ∧
        reqs.length = l.length ∧
        ∀ r ∈ reqs, r.method = "POST" ∧
          r.url = "https://" ++ url ++ "/api/v1/settings/registry") ∧
    add_repositories http url token registry credentials collection (JVal.arr []) =
      Except.ok [] := by
  constructor
  · intro fileJson l h
    refine ⟨l.map (fun i => registryRequest url token registry i collection), ?_, ?_, ?_⟩
    · simp [add_repositories, h, Except.map, foldl_set_registry_trace]
    · simp
    · intro r hr
      rcases List.mem_map.mp hr with ⟨i, _, rfl⟩
      exact ⟨rfl, rfl⟩
  · rfl

/-- C3 witness: a one-entry array yields exactly one POST to `settings/registry`. -/
theorem C3_one_post_per_repository_witness :
    ∃ reqs, add_repositories (fun _ => ⟨200, JVal.null⟩) "console.example.com" "tok"
        "registry.gitlab.com" none "All"
        (JVal.arr [JVal.obj [("path", JVal.str "grp/proj")]]) = Except.ok reqs ∧
      reqs.length = ([JVal.str "grp/proj"]).length ∧
      ∀ r ∈ reqs, r.method = "POST" ∧
        r.url = "https://" ++ "console.example.com" ++ "/api/v1/settings/registry" :=
  (C3_one_post_per_repository (fun _ => ⟨200, JVal.null⟩) "console.example.com" "tok"
      "registry.gitlab.com" none "All").1
    (JVal.arr [JVal.obj [("path", JVal.str "grp/proj")]]) [JVal.str "grp/proj"] rfl

/-- C5: when the authenticate response is a JSON object, `auth_get_token`
returns exactly that object's `token` field: the token's value when the field
is present, and the absence value (with no exception and no explicit failure
signal) when it is not. -/
theorem C5_token_extraction (http : Request → Response) (url user password : String)
    (fs : List (String × JVal))
    (h : (http (authRequest url user password)).jsonBody = JVal.obj fs) :
    (auth_get_token http url user password).2 = Except.ok (getField fs "token") ∧
    (∀ v, getField fs "token" = some v →
      (auth_get_token http url user password).2 = Except.ok (some v)) ∧
    (getField fs "token" = none →
      (auth_get_token http url user password).2 = Except.ok none) := by
  have hbase : (auth_get_token http url user password).2 = Except.ok (getField fs "token") := by
    simp [auth_get_token, pyDictGet, h]
  refine ⟨hbase, ?_, ?_⟩
  · intro v hv
    rw [hbase, hv]
  · intro hv
    rw [hbase, hv]

/-- C5 witness: a response `{"token": "T"}` yields the token `"T"`. -/
theorem C5_token_extraction_witness :
    (auth_get_token (fun _ => ⟨200, JVal.obj [("token", JVal.str "T")]⟩)
        "console.example.com" "ak" "sk").2 = Except.ok (some (JVal.str "T")) :=
  (C5_token_extraction (fun _ => ⟨200, JVal.obj [("token", JVal.str "T")]⟩)
      "console.example.com" "ak" "sk" [("token", JVal.str "T")] rfl).2.1
    (JVal.str "T") rfl

lemma get_env_variables_char (cred : List (String × String)) (isatty : Bool)
    (inputResp getpassResp stdinLine : String → String) :
    get_env_variables (some cred) isatty inputResp getpassResp stdinLine =
      ⟨(match lookupKey cred "COMPUTE_API_ENDPOINT" with
         | some v => v
         | none => inputResp urlPrompt),
       (match lookupKey cred "ACCESS_KEY" with
         | some v => v
         | none => get_key isatty getpassResp stdinLine accessKeyPrompt),
       (match lookupKey cred "SECRET_KEY" with
         | some v => v
         | none => get_key isatty getpassResp stdinLine secretKeyPrompt),
       (if (lookupKey cred "COMPUTE_API_ENDPOINT").isSome then [] else [urlPrompt]) ++
         (if (lookupKey cred "ACCESS_KEY").isSome then [] else [accessKeyPrompt]) ++
         (if (lookupKey cred "SECRET_KEY").isSome then [] else [secretKeyPrompt])⟩ := by
  cases h1 : lookupKey cred "COMPUTE_API_ENDPOINT" <;>
    cases h2 : lookupKey cred "ACCESS_KEY" <;>
      cases h3 : lookupKey cred "SECRET_KEY" <;>
        simp [get_env_variables, h1, h2, h3]

/-- C6: with a secrets file present, each of the three configuration values
comes from the file when its key is there and is prompted for exactly when it
is absent, whatever subset of the keys the file holds: each present key
contributes its file value unmodified, each absent key its prompted value,
and the issued prompts are exactly those of the absent keys; in particular
all three present gives the file values with zero prompts, and one missing
key prompts for exactly that value while the other two come from the file. -/
theorem C6_env_file_resolution (cred : List (String × String)) (isatty : Bool)
    (inputResp getpassResp stdinLine : String → String) (u a s : String) :
    (∀ v, lookupKey cred "COMPUTE_API_ENDPOINT" = some v →
      (get_env_variables (some cred) isatty inputResp getpassResp stdinLine).url = v) ∧
    (lookupKey cred "COMPUTE_API_ENDPOINT" = none →
      (get_env_variables (some cred) isatty inputResp getpassResp stdinLine).url =
        inputResp urlPrompt) ∧
    (∀ v, lookupKey cred "ACCESS_KEY" = some v →
      (get_env_variables (some cred) isatty inputResp getpassResp stdinLine).access_key = v) ∧
    (lookupKey cred "ACCESS_KEY" = none →
      (get_env_variables (some cred) isatty inputResp getpassResp stdinLine).access_key =
        get_key isatty getpassResp stdinLine accessKeyPrompt) ∧
    (∀ v, lookupKey cred "SECRET_KEY" = some v →
      (get_env_variables (some cred) isatty inputResp getpassResp stdinLine).secret_key = v) ∧
    (lookupKey cred "SECRET_KEY" = none →
      (get_env_variables (some cred) isatty inputResp getpassResp stdinLine).secret_key =
        get_key isatty getpassResp stdinLine secretKeyPrompt) ∧
    ((get_env_variables (some cred) isatty inputResp getpassResp stdinLine).prompts =
      (if (lookupKey cred "COMPUTE_API_ENDPOINT").isSome then [] else [urlPrompt]) ++
        (if (lookupKey cred "ACCESS_KEY").isSome then [] else [accessKeyPrompt]) ++
        (if (lookupKey cred "SECRET_KEY").isSome then [] else [secretKeyPrompt])) ∧
    (lookupKey cred "COMPUTE_API_ENDPOINT" = some u →
     lookupKey cred "ACCESS_KEY" = some a →
     lookupKey cred "SECRET_KEY" = some s →
     get_env_variables (some cred) isatty inputResp getpassResp stdinLine =
       ⟨u, a, s, []⟩) ∧
    (lookupKey cred "COMPUTE_API_ENDPOINT" = none →
     lookupKey cred "ACCESS_KEY" = some a →
     lookupKey cred "SECRET_KEY" = some s →
     get_env_variables (some cred) isatty inputResp getpassResp stdinLine =
       ⟨inputResp urlPrompt, a, s, [urlPrompt]⟩) ∧
    (lookupKey cred "COMPUTE_API_ENDPOINT" = some u →
     lookupKey cred "ACCESS_KEY" = none →
     lookupKey cred "SECRET_KEY" = some s →
     get_env_variables (some cred) isatty inputResp getpassResp stdinLine =
       ⟨u, get_key isatty getpassResp stdinLine accessKeyPrompt, s, [accessKeyPrompt]⟩) ∧
    (lookupKey cred "COMPUTE_API_ENDPOINT" = some u →
     lookupKey cred "ACCESS_KEY" = some a →
     lookupKey cred "SECRET_KEY" = none →
     get_env_variables (some cred) isatty inputResp getpassResp stdinLine =
       ⟨u, a, get_key isatty getpassResp stdinLine secretKeyPrompt, [secretKeyPrompt]⟩) := by
  have key := get_env_variables_char cred isatty inputResp getpassResp stdinLine
  refine ⟨?_, ?_, ?_, ?_, ?_, ?_, ?_, ?_, ?_, ?_, ?_⟩
  · intro v hv
    rw [key]
    simp [hv]
  · intro hv
    rw [key]
    simp [hv]
  · intro v hv
    rw [key]
    simp [hv]
  · intro hv
    rw [key]
    simp [hv]
  · intro v hv
    rw [key]
    simp [hv]
  · intro hv
    rw [key]
    simp [hv]
  · rw [key]
  · intro h1 h2 h3
    simp [get_env_variables, h1, h2, h3]
  · intro h1 h2 h3
    simp [get_env_variables, h1, h2, h3]
  · intro h1 h2 h3
    simp [get_env_variables, h1, h2, h3]
  · intro h1 h2 h3
    simp [get_env_variables, h1, h2, h3]

/-- C6 witness: a full secrets file resolves with zero prompts; a file
holding only the secret key takes the secret key from the file and prompts
for exactly the endpoint and the access key, in order. -/
theorem C6_env_file_resolution_witness :
    get_env_variables
        (some [("COMPUTE_API_ENDPOINT", "console.example.com"),
               ("ACCESS_KEY", "ak"), ("SECRET_KEY", "sk")])
        true (fun _ => "typed") (fun _ => "typedKey") (fun _ => "line") =
      ⟨"console.example.com", "ak", "sk", []⟩ ∧
    (get_env_variables (some [("SECRET_KEY", "sk")])
        true (fun _ => "typed") (fun _ => "typedKey") (fun _ => "line")).url =
      (fun _ : String => "typed") urlPrompt ∧
    (get_env_variables (some [("SECRET_KEY", "sk")])
        true (fun _ => "typed") (fun _ => "typedKey") (fun _ => "line")).access_key =
      get_key true (fun _ => "typedKey") (fun _ => "line") accessKeyPrompt ∧
    (get_env_variables (some [("SECRET_KEY", "sk")])
        true (fun _ => "typed") (fun _ => "typedKey") (fun _ => "line")).secret_key = "sk" ∧
    (get_env_variables (some [("SECRET_KEY", "sk")])
        true (fun _ => "typed") (fun _ => "typedKey") (fun _ => "line")).prompts =
      (if (lookupKey [("SECRET_KEY", "sk")] "COMPUTE_API_ENDPOINT").isSome then []
       else [urlPrompt]) ++
        (if (lookupKey [("SECRET_KEY", "sk")] "ACCESS_KEY").isSome then []
         else [accessKeyPrompt]) ++
        (if (lookupKey [("SECRET_KEY", "sk")] "SECRET_KEY").isSome then []
         else [secretKeyPrompt]) :=
  ⟨(C6_env_file_resolution
      [("COMPUTE_API_ENDPOINT", "console.example.com"),
       ("ACCESS_KEY", "ak"), ("SECRET_KEY", "sk")]
      true (fun _ => "typed") (fun _ => "typedKey") (fun _ => "line")
      "console.example.com" "ak" "sk").2.2.2.2.2.2.2.1 rfl rfl rfl,
   (C6_env_file_resolution [("SECRET_KEY", "sk")]
      true (fun _ => "typed") (fun _ => "typedKey") (fun _ => "line")
      "console.example.com" "ak" "sk").2.1 rfl,
   (C6_env_file_resolution [("SECRET_KEY", "sk")]
      true (fun _ => "typed") (fun _ => "typedKey") (fun _ => "line")
      "console.example.com" "ak" "sk").2.2.2.1 rfl,
   (C6_env_file_resolution [("SECRET_KEY", "sk")]
      true (fun _ => "typed") (fun _ => "typedKey") (fun _ => "line")
      "console.example.com" "ak" "sk").2.2.2.2.1 "sk" rfl,
   (C6_env_file_resolution [("SECRET_KEY", "sk")]
      true (fun _ => "typed") (fun _ => "typedKey") (fun _ => "line")
      "console.example.com" "ak" "sk").2.2.2.2.2.2.1⟩

lemma credGo_filterMap (xs : List JVal)
    (hobjs : ∀ i ∈ xs, ∃ fs, i = JVal.obj fs)
    (hids : ∀ fs, JVal.obj fs ∈ xs → optTruthy (getField fs "external") = false →
      (getField fs "_id").isSome) :
    credGo xs = xs.filterMap (fun i =>
      match i with
      | JVal.obj fs =>
        if optTruthy (getField fs "external") then none
        else (getField fs "_id").map (fun v => Event.print (pyStr v))
      | _ => none) := by
  induction xs with
  | nil => rfl
  | cons x rest ih =>
    obtain ⟨fs, rfl⟩ := hobjs x (List.mem_cons_self x rest)
    have ih' := ih (fun i hi => hobjs i (List.mem_cons_of_mem _ hi))
      (fun gs hg he => hids gs (List.mem_cons_of_mem _ hg) he)
    cases hext : optTruthy (getField fs "external") with
    | true => simp [credGo, hext, ih']
    | false =>
      obtain ⟨v, hv⟩ := Option.isSome_iff_exists.mp
        (hids fs (List.mem_cons_self _ _) hext)
      simp [credGo, hext, hv, ih']

lemma collGo_filterMap (ys : List JVal)
    (hobjs : ∀ i ∈ ys, ∃ fs, i = JVal.obj fs) :
    collGo ys = ys.filterMap (fun i =>
      match i with
      | JVal.obj fs => (getField fs "name").bind
          (fun v => if v.truthy then some (Event.print (pyStr v)) else none)
      | _ => none) := by
  induction ys with
  | nil => rfl
  | cons x rest ih =>
    obtain ⟨fs, rfl⟩ := hobjs x (List.mem_cons_self x rest)
    have ih' := ih (fun i hi => hobjs i (List.mem_cons_of_mem _ hi))
    cases hname : getField fs "name" with
    | none => simp [collGo, hname, ih']
    | some v =>
      cases ht : v.truthy with
      | true => simp [collGo, hname, ht, ih']
      | false => simp [collGo, hname, ht, ih']

/-- C7: in list mode, for object-array server responses, a credential entry's
`_id` is printed exactly when its `external` field is falsy or absent, a
collection entry's `name` is printed exactly when it is truthy (non-empty),
and the printed lines follow the server's response order. -/
theorem C7_listing_filters (http : Request → Response) (url token : String)
    (xs ys : List JVal)
    (hx : (get_credentials http url token).2.jsonBody = JVal.arr xs)
    (hxobjs : ∀ i ∈ xs, ∃ fs, i = JVal.obj fs)
    (hxids : ∀ fs, JVal.obj fs ∈ xs → optTruthy (getField fs "external") = false →
      (getField fs "_id").isSome)
    (hy : (get_collections http url token).2.jsonBody = JVal.arr ys)
    (hyobjs : ∀ i ∈ ys, ∃ fs, i = JVal.obj fs) :
    list_basic_credentials http url token =
      (get_credentials http url token).1.map Event.net ++
        xs.filterMap (fun i =>
          match i with
          | JVal.obj fs =>
            if optTruthy (getField fs "external") then none
            else (getField fs "_id").map (fun v => Event.print (pyStr v))
          | _ => none) ∧
    list_collections http url token =
      (get_collections http url token).1.map Event.net ++
        ys.filterMap (fun i =>
          match i with
          | JVal.obj fs => (getField fs "name").bind
              (fun v => if v.truthy then some (Event.print (pyStr v)) else none)
          | _ => none) := by
  constructor
  · simp only [list_basic_credentials]
    rw [hx]
    simp only [pyIter]
    rw [credGo_filterMap xs hxobjs hxids]
  · simp only [list_collections]
    rw [hy]
    simp only [pyIter]
    rw [collGo_filterMap ys hyobjs]

/-- C7 witness: a one-entry response with `_id` `"c"` and a truthy `name`
`"n"` prints exactly `"c"` in the credential listing and `"n"` in the
collection listing, after the one GET request each listing issues. -/
theorem C7_listing_filters_witness :
    list_basic_credentials
        (fun _ => ⟨200, JVal.arr [JVal.obj [("_id", JVal.str "c"), ("name", JVal.str "n")]]⟩)
        "console.example.com" "tok" =
      (get_credentials
          (fun _ => ⟨200, JVal.arr [JVal.obj [("_id", JVal.str "c"), ("name", JVal.str "n")]]⟩)
          "console.example.com" "tok").1.map Event.net ++
        ([JVal.obj [("_id", JVal.str "c"), ("name", JVal.str "n")]]).filterMap (fun i =>
          match i with
          | JVal.obj fs =>
            if optTruthy (getField fs "external") then none
            else (getField fs "_id").map (fun v => Event.print (pyStr v))
          | _ => none) ∧
    list_collections
        (fun _ => ⟨200, JVal.arr [JVal.obj [("_id", JVal.str "c"), ("name", JVal.str "n")]]⟩)
        "console.example.com" "tok" =
      (get_collections
          (fun _ => ⟨200, JVal.arr [JVal.obj [("_id", JVal.str "c"), ("name", JVal.str "n")]]⟩)
          "console.example.com" "tok").1.map Event.net ++
        ([JVal.obj [("_id", JVal.str "c"), ("name", JVal.str "n")]]).filterMap (fun i =>
          match i with
          | JVal.obj fs => (getField fs "name").bind
              (fun v => if v.truthy then some (Event.print (pyStr v)) else none)
          | _ => none) :=
  C7_listing_filters
    (fun _ => ⟨200, JVal.arr [JVal.obj [("_id", JVal.str "c"), ("name", JVal.str "n")]]⟩)
    "console.example.com" "tok"
    [JVal.obj [("_id", JVal.str "c"), ("name", JVal.str "n")]]
    [JVal.obj [("_id", JVal.str "c"), ("name", JVal.str "n")]]
    rfl
    (by intro i hi; rw [List.mem_singleton] at hi; exact ⟨_, hi⟩)
    (by intro fs hg _he
        rw [List.mem_singleton] at hg
        cases hg
        rfl)
    rfl
    (by intro i hi; rw [List.mem_singleton] at hi; exact ⟨_, hi⟩)

/-- C8: when the input file path names no existing file, neither as given nor
resolved against the working directory, the run prints the user-facing
missing-file message and terminates with no network request of any kind. -/
theorem C8_missing_file_no_network (http : Request → Response) (isfile : String → Bool)
    (cwd : String) (argsList : Bool) (argsRegistry argsJson : String)
    (argsCredentials : Option String) (argsScope : String)
    (envFile : Option (List (String × String))) (isatty : Bool)
    (inputResp getpassResp stdinLine : String → String) (fileJson : JVal)
    (h1 : isfile argsJson = false)
    (h2 : isfile (cwd ++ "/" ++ argsJson) = false) :
    main_run http isfile cwd argsList argsRegistry argsJson argsCredentials argsScope
        envFile isatty inputResp getpassResp stdinLine fileJson =
      [Event.print missingFileMsg] ∧
    ∀ r : Request, Event.net r ∉ main_run http isfile cwd argsList argsRegistry argsJson
        argsCredentials argsScope envFile isatty inputResp getpassResp stdinLine fileJson := by
  have hcp : check_path isfile cwd argsJson = none := by
    simp [check_path, h1, h2]
  have hmain : main_run http isfile cwd argsList argsRegistry argsJson argsCredentials
      argsScope envFile isatty inputResp getpassResp stdinLine fileJson =
      [Event.print missingFileMsg] := by
    simp [main_run, hcp]
  refine ⟨hmain, ?_⟩
  intro r hr
  rw [hmain] at hr
  simp at hr

/-- C8 witness: with no file existing anywhere, the run is exactly the
missing-file message and issues no request. -/
theorem C8_missing_file_no_network_witness :
    main_run (fun _ => ⟨200, JVal.null⟩) (fun _ => false) "/work" false
        "registry.gitlab.com" "gitlab.json" none "All" none true
        (fun _ => "u") (fun _ => "k") (fun _ => "k") (JVal.arr []) =
      [Event.print missingFileMsg] ∧
    ∀ r : Request, Event.net r ∉ main_run (fun _ => ⟨200, JVal.null⟩) (fun _ => false) "/work"
        false "registry.gitlab.com" "gitlab.json" none "All" none true
        (fun _ => "u") (fun _ => "k") (fun _ => "k") (JVal.arr []) :=
  C8_missing_file_no_network (fun _ => ⟨200, JVal.null⟩) (fun _ => false) "/work" false
    "registry.gitlab.com" "gitlab.json" none "All" none true
    (fun _ => "u") (fun _ => "k") (fun _ => "k") (JVal.arr []) rfl rfl

lemma readRepoGo_obj (entries : List (List (String × JVal))) :
    readRepoGo (entries.map JVal.obj) = Except.ok (entries.filterMap (fun fs =>
      match getField fs "path" with
      | some v => if v.truthy then some v else none
      | none => none)) := by
  induction entries with
  | nil => rfl
  | cons fs rest ih =>
    cases hp : getField fs "path" with
    | none => simp [readRepoGo, pyDictGet, hp, optTruthy, ih]
    | some v =>
      cases ht : v.truthy with
      | true => simp [readRepoGo, pyDictGet, hp, optTruthy, ht, ih, Except.map]
      | false => simp [readRepoGo, pyDictGet, hp, optTruthy, ht, ih]

/-- C10: the registrar collects an entry exactly when its `path` value is
truthy: entries lacking `path` are dropped, and so are entries whose `path`
is falsy, such as the empty string or `null`. -/
theorem C10_falsy_paths_skipped (entries : List (List (String × JVal))) :
    read_repository_list (JVal.arr (entries.map JVal.obj)) =
      Except.ok (entries.filterMap (fun fs =>
        match getField fs "path" with
        | some v => if v.truthy then some v else none
        | none => none)) ∧
    read_repository_list (JVal.arr [JVal.obj [("path", JVal.str "")]]) = Except.ok [] ∧
    read_repository_list (JVal.arr [JVal.obj [("path", JVal.null)]]) = Except.ok [] ∧
    (∀ fs v, getField fs "path" = some v → v.truthy = true →
      read_repository_list (JVal.arr [JVal.obj fs]) = Except.ok [v]) := by
  refine ⟨?_, rfl, rfl, ?_⟩
  · simp [read_repository_list, pyIter, readRepoGo_obj]
  · intro fs v hv ht
    simp [read_repository_list, pyIter, readRepoGo, pyDictGet, hv, optTruthy, ht, Except.map]

/-- C10 witness: a one-entry array with truthy path `"grp/proj"` is collected. -/
theorem C10_falsy_paths_skipped_witness :
    read_repository_list (JVal.arr [JVal.obj [("path", JVal.str "grp/proj")]]) =
      Except.ok [JVal.str "grp/proj"] :=
  (C10_falsy_paths_skipped []).2.2.2 [("path", JVal.str "grp/proj")]
    (JVal.str "grp/proj") rfl rfl
